import Mathlib

/-!
Verification of the `astrbot_plugin_txsc` plugin core against its design
specification.  The Python source (`main.py`, `providers/tongyi.py`) is
shallowly embedded below: pure functions become Lean functions, the mutable
per-user cooldown map becomes explicit association-list state passing, the
asynchronous poll loop becomes a fuel-indexed recursion that also counts
queries and sleep units, and the image-collection session handler becomes a
step function on the accumulated image list.
-/

namespace Txsc

/-- Modelled from the spec: `GenerationConfig` from `providers/base.py`
(absent from the sources); §3 gives `{prompt, width, height, style?, model?}`.
Only `prompt`, `width`, `height`, `model` are read by the code in `src/`. -/
structure GenerationConfig where
  prompt : String
  width : Nat
  height : Nat
  style : Option String := none
  model : Option String := none
deriving DecidableEq, Repr

/-- Modelled from the spec: `ImageGenerationResult` from `providers/base.py`
(absent from the sources); §3 gives `{success, imageURL?, imageData?,
errorMessage?}`.  Field names follow the attribute names used in `src/`
(`success`, `image_url`, `image_base64`, `error_message`). -/
structure ImageGenerationResult where
  success : Bool
  image_url : Option String := none
  image_base64 : Option String := none
  error_message : Option String := none
deriving DecidableEq, Repr

/-- Modelled from the spec: the derived `has_image` property of a result
(§3: "`hasImage` is derived: true iff `success` and (`imageURL` or
`imageData`) present"); its definition lives in the absent
`providers/base.py`. -/
def ImageGenerationResult.has_image (r : ImageGenerationResult) : Bool :=
  r.success && (r.image_url.isSome || r.image_base64.isSome)

/-- Python `x or default` on an optional string: `None` and the empty string
both fall back to the default (used as `result.error_message or "未知错误"`
in `main.py:446` and `result.error_message or "生成图片失败"` elsewhere). -/
def pyOr (o : Option String) (d : String) : String :=
  match o with
  | none => d
  | some s => if s = "" then d else s

/-! ## Cooldown guard (`main.py:154`, `_check_cooldown`)

`self.user_last_request_time : Dict[str, float]` is embedded as an
association list from user id to timestamp; timestamps and the configured
cooldown are integers (Python uses floats from `time.time()`; exact
arithmetic replaces floating point, which does not affect the comparison
logic verified here). -/

/-- Python dict lookup `st[k]` / `k in st` on the embedded map. -/
def dictGet (st : List (String × Int)) (k : String) : Option Int :=
  match st with
  | [] => none
  | (k₁, v) :: rest => if k₁ = k then some v else dictGet rest k

/-- Python dict assignment `st[k] = v` on the embedded map. -/
def dictSet (st : List (String × Int)) (k : String) (v : Int) : List (String × Int) :=
  match st with
  | [] => [(k, v)]
  | (k₁, v₁) :: rest => if k₁ = k then (k, v) :: rest else (k₁, v₁) :: dictSet rest k v

/-- `_check_cooldown` (`main.py:154-197`).  Returns `none` when the request
is accepted, `some msg` when rejected, together with the updated
`user_last_request_time` map.  `cooldown_time` is the configured duration,
`admins` the administrator-bypass list, `current_time` the value of
`time.time()` at the call. -/
def check_cooldown (cooldown_time : Int) (admins : List String) (user_id : String)
    (current_time : Int) (st : List (String × Int)) :
    Option String × List (String × Int) :=
  if cooldown_time ≤ 0 then
    (none, st)
  else if user_id ∈ admins then
    (none, st)
  else
    match dictGet st user_id with
    | some last_time =>
      let elapsed := current_time - last_time
      if elapsed < cooldown_time then
        let remaining := (cooldown_time - elapsed).toNat
        let minutes := remaining / 60
        let seconds := remaining % 60
        if minutes > 0 then
          (some ("请求冷却中，请 " ++ toString minutes ++ " 分 " ++ toString seconds
            ++ " 秒后再试"), st)
        else
          (some ("请求冷却中，请 " ++ toString seconds ++ " 秒后再试"), st)
      else
        (none, dictSet st user_id current_time)
    | none => (none, dictSet st user_id current_time)

/-! ## Fallback orchestrator (`main.py:429`, `_generate_with_providers`)

`self.providers` is embedded as a partial map from provider name to that
provider's `generate_image` behaviour, a function of the `GenerationConfig`
whose outcome is either a returned result or a raised exception (both are
observed by the orchestrator's `try`/`except`). -/

/-- Outcome of one `provider.generate_image(config)` call: a returned
`ImageGenerationResult`, or an exception with message `msg`. -/
inductive CallOutcome where
  | ok (r : ImageGenerationResult)
  | exn (msg : String)
deriving DecidableEq, Repr

/-- The error string recorded for candidate `name` when it does not
succeed, exactly as `_generate_with_providers` appends it to `errors`
(`main.py:435,448,452`). -/
def errorEntry (providers : String → Option (GenerationConfig → CallOutcome))
    (config : GenerationConfig) (name : String) : String :=
  match providers name with
  | none => name ++ ": 供应商未配置"
  | some gen =>
    match gen config with
    | CallOutcome.ok r => name ++ ": " ++ pyOr r.error_message "未知错误"
    | CallOutcome.exn e => name ++ ": 请求异常: " ++ e

/-- Whether the `generate_image` call for `name` would report success
(`name` present in the registry, no exception, `result.success` true). -/
def callSucceeds (providers : String → Option (GenerationConfig → CallOutcome))
    (config : GenerationConfig) (name : String) : Bool :=
  match providers name with
  | none => false
  | some gen =>
    match gen config with
    | CallOutcome.ok r => r.success
    | CallOutcome.exn _ => false

/-- The candidates of `l` whose `generate_image` is actually invoked when
no earlier candidate succeeds: those present in `self.providers`
(`main.py:434-441`). -/
def invokedNames (providers : String → Option (GenerationConfig → CallOutcome))
    (l : List String) : List String :=
  l.filter fun n => (providers n).isSome

/-- The `for provider_name in providers_list` loop of
`_generate_with_providers` (`main.py:433-452`), threading the `errors`
accumulator and recording which providers were invoked.  Returns `some r`
as first component on the first success, `none` when the list is
exhausted. -/
def generate_with_providers_loop
    (providers : String → Option (GenerationConfig → CallOutcome))
    (config : GenerationConfig) :
    List String → List String → List String →
    Option ImageGenerationResult × List String × List String
  | [], errors, invoked => (none, errors, invoked)
  | name :: rest, errors, invoked =>
    match providers name with
    | none =>
      generate_with_providers_loop providers config rest
        (errors ++ [name ++ ": 供应商未配置"]) invoked
    | some gen =>
      match gen config with
      | CallOutcome.ok r =>
        if r.success then (some r, errors, invoked ++ [name])
        else
          generate_with_providers_loop providers config rest
            (errors ++ [name ++ ": " ++ pyOr r.error_message "未知错误"])
            (invoked ++ [name])
      | CallOutcome.exn e =>
        generate_with_providers_loop providers config rest
          (errors ++ [name ++ ": 请求异常: " ++ e]) (invoked ++ [name])

/-- Scanner behind Python's `s.split(": ", 1)`: the characters after the
first occurrence of the two-character separator `": "`, or `none` when the
separator does not occur. -/
def splitRemainder : List Char → Option (List Char)
  | [] => none
  | c :: rest =>
    if c = ':' ∧ rest.head? = some ' ' then some rest.tail
    else splitRemainder rest

/-- Python's `s.split(": ", 1)[1]` (`main.py:455`).  Every string the
orchestrator records in `errors` contains `": "`, so the `none` branch
(where Python would raise `IndexError`) is unreachable there. -/
def split_after_sep (s : String) : String :=
  match splitRemainder s.data with
  | some r => String.mk r
  | none => s

/-- `_generate_with_providers` (`main.py:429-459`), paired with the list of
providers whose `generate_image` was invoked. -/
def generate_with_providers_full
    (providers : String → Option (GenerationConfig → CallOutcome))
    (config : GenerationConfig) (providers_list : List String) :
    ImageGenerationResult × List String :=
  match generate_with_providers_loop providers config providers_list [] [] with
  | (some r, _, invoked) => (r, invoked)
  | (none, errors, invoked) =>
    if providers_list.length = 1 then
      (⟨false, none, none, some (match errors with
        | [] => "生成失败"
        | e :: _ => split_after_sep e)⟩, invoked)
    else
      (⟨false, none, none,
        some ("所有供应商都无法生成图片。详细错误: " ++ String.intercalate "; " errors)⟩,
        invoked)

/-- The `ImageGenerationResult` returned by `_generate_with_providers`. -/
def generate_with_providers
    (providers : String → Option (GenerationConfig → CallOutcome))
    (config : GenerationConfig) (providers_list : List String) :
    ImageGenerationResult :=
  (generate_with_providers_full providers config providers_list).1

theorem splitRemainder_append (m : List Char) :
    ∀ l : List Char, splitRemainder l = none →
      splitRemainder (l ++ ':' :: ' ' :: m) = some m := by
  intro l
  induction l with
  | nil =>
    intro _
    simp [splitRemainder]
  | cons c t ih =>
    intro h
    rw [splitRemainder] at h
    by_cases hcond : c = ':' ∧ t.head? = some ' '
    · rw [if_pos hcond] at h
      exact absurd h (by simp)
    · rw [if_neg hcond] at h
      have hcond₂ : ¬ (c = ':' ∧ (t ++ ':' :: ' ' :: m).head? = some ' ') := by
        rcases t with _ | ⟨c₂, t₂⟩
        · rintro ⟨-, hx⟩
          simp only [List.nil_append, List.head?_cons, Option.some.injEq] at hx
          exact absurd hx (by decide)
        · simpa using hcond
      rw [List.cons_append, splitRemainder, if_neg hcond₂]
      exact ih h

theorem split_after_sep_concat (name msg : String)
    (h : splitRemainder name.data = none) :
    split_after_sep (name ++ ": " ++ msg) = msg := by
  obtain ⟨nd⟩ := name
  obtain ⟨md⟩ := msg
  have hdata : (String.mk nd ++ ": " ++ String.mk md).data = nd ++ ':' :: ' ' :: md := by
    show (nd ++ [':', ' ']) ++ md = nd ++ ':' :: ' ' :: md
    simp
  rw [split_after_sep, hdata, splitRemainder_append md nd h]

/-- Processing a run of candidates none of which succeeds appends their
error entries and invoked names, then continues with the rest. -/
theorem gwp_loop_append_fail
    (providers : String → Option (GenerationConfig → CallOutcome))
    (config : GenerationConfig) :
    ∀ (l₁ l₂ errors invoked : List String),
      (∀ n ∈ l₁, callSucceeds providers config n = false) →
      generate_with_providers_loop providers config (l₁ ++ l₂) errors invoked =
        generate_with_providers_loop providers config l₂
          (errors ++ l₁.map (errorEntry providers config))
          (invoked ++ invokedNames providers l₁) := by
  intro l₁
  induction l₁ with
  | nil =>
    intro l₂ errors invoked _
    simp [invokedNames]
  | cons name rest ih =>
    intro l₂ errors invoked hall
    have hname : callSucceeds providers config name = false :=
      hall name (List.mem_cons_self name rest)
    have hrest : ∀ n ∈ rest, callSucceeds providers config n = false :=
      fun n hn => hall n (List.mem_cons_of_mem _ hn)
    cases hp : providers name with
    | none =>
      simp only [List.cons_append, generate_with_providers_loop, hp, List.append_eq]
      rw [ih l₂ _ _ hrest]
      simp [errorEntry, hp, invokedNames]
    | some gen =>
      cases hg : gen config with
      | ok r =>
        have hs : r.success = false := by
          simpa [callSucceeds, hp, hg] using hname
        simp only [List.cons_append, generate_with_providers_loop, hp, hg, hs,
          Bool.false_eq_true, if_false, List.append_eq]
        rw [ih l₂ _ _ hrest]
        simp [errorEntry, hp, hg, invokedNames]
      | exn e =>
        simp only [List.cons_append, generate_with_providers_loop, hp, hg, List.append_eq]
        rw [ih l₂ _ _ hrest]
        simp [errorEntry, hp, hg, invokedNames]

/-- C1: for every provider registry, every `GenerationConfig`, and every
candidate list `l₁ ++ nm :: l₂` in which no candidate of `l₁` succeeds and
`nm`'s `generate_image` call returns a result with `success = true`, the
orchestrator returns exactly `nm`'s result, and the invoked candidates are
those of `l₁` present in the registry followed by `nm` — no candidate of
`l₂` is ever invoked. -/
theorem fallback_first_success
    (providers : String → Option (GenerationConfig → CallOutcome))
    (config : GenerationConfig) (l₁ l₂ : List String) (nm : String)
    (gen : GenerationConfig → CallOutcome) (r : ImageGenerationResult)
    (hnm : providers nm = some gen) (hg : gen config = CallOutcome.ok r)
    (hr : r.success = true)
    (hprev : ∀ n ∈ l₁, callSucceeds providers config n = false) :
    generate_with_providers_full providers config (l₁ ++ nm :: l₂) =
      (r, invokedNames providers l₁ ++ [nm]) := by
  have hloop : generate_with_providers_loop providers config (l₁ ++ nm :: l₂) [] [] =
      (some r, l₁.map (errorEntry providers config), invokedNames providers l₁ ++ [nm]) := by
    rw [gwp_loop_append_fail providers config l₁ (nm :: l₂) [] [] hprev]
    simp only [generate_with_providers_loop, hnm, hg, hr, if_true]
    simp
  rw [generate_with_providers_full, hloop]

/-- Witness for C1: candidate list `["a", "b", "c"]` where `a` fails with
"quota exceeded" and `b` succeeds with an image URL; the orchestrator
returns `b`'s result having invoked only `a` and `b`. -/
theorem fallback_first_success_witness :
    generate_with_providers_full
      (fun n =>
        if n = "a" then
          some (fun _ => CallOutcome.ok ⟨false, none, none, some "quota exceeded"⟩)
        else if n = "b" then
          some (fun _ => CallOutcome.ok ⟨true, some "http://x/img.png", none, none⟩)
        else none)
      ⟨"cat", 512, 512, none, none⟩ ["a", "b", "c"] =
      (⟨true, some "http://x/img.png", none, none⟩, ["a", "b"]) := by
  have h := fallback_first_success
    (fun n =>
      if n = "a" then
        some (fun _ => CallOutcome.ok ⟨false, none, none, some "quota exceeded"⟩)
      else if n = "b" then
        some (fun _ => CallOutcome.ok ⟨true, some "http://x/img.png", none, none⟩)
      else none)
    ⟨"cat", 512, 512, none, none⟩ ["a"] ["c"] "b"
    (fun _ => CallOutcome.ok ⟨true, some "http://x/img.png", none, none⟩)
    ⟨true, some "http://x/img.png", none, none⟩ rfl rfl rfl (by decide)
  simpa [invokedNames] using h

/-- C2: when every candidate fails — for a singleton list `[nm]` (with
`nm` free of the `": "` separator, and the candidate returning a non-empty
error message `m`) the orchestrator's error message is exactly `m`, with no
name prefix; for a list with at least two candidates it is the synthetic
message concatenating every candidate's `"<name>: <message>"` entry,
semicolon-separated. -/
theorem fallback_all_fail_errors
    (providers : String → Option (GenerationConfig → CallOutcome))
    (config : GenerationConfig) (l : List String)
    (hfail : ∀ n ∈ l, callSucceeds providers config n = false) :
    (∀ nm gen r m, l = [nm] → splitRemainder nm.data = none →
      providers nm = some gen → gen config = CallOutcome.ok r →
      r.error_message = some m → m ≠ "" →
      (generate_with_providers providers config l).error_message = some m) ∧
    (2 ≤ l.length →
      (generate_with_providers providers config l).error_message =
        some ("所有供应商都无法生成图片。详细错误: "
          ++ String.intercalate "; " (l.map (errorEntry providers config)))) := by
  have hloop : generate_with_providers_loop providers config l [] [] =
      (none, l.map (errorEntry providers config), invokedNames providers l) := by
    have h := gwp_loop_append_fail providers config l [] [] [] hfail
    rw [List.append_nil] at h
    rw [h, generate_with_providers_loop]
    simp
  constructor
  · rintro nm gen r m rfl hsep hp hg hm hm'
    have hentry : errorEntry providers config nm = nm ++ ": " ++ m := by
      simp only [errorEntry, hp, hg, hm, pyOr]
      rw [if_neg hm']
    rw [generate_with_providers, generate_with_providers_full, hloop]
    simp [hentry, split_after_sep_concat nm m hsep]
  · intro hlen
    have hne : ¬ (l.length = 1) := by omega
    rw [generate_with_providers, generate_with_providers_full, hloop]
    simp only [hne, if_false]

/-- Witness for C2: a singleton list whose only candidate fails with
"bad key" yields exactly "bad key"; the two-candidate list `["a", "b"]`
(`a` failing, `b` absent from the registry) yields the aggregated
semicolon-joined diagnostic. -/
theorem fallback_all_fail_errors_witness :
    (generate_with_providers
      (fun n => if n = "a" then
        some (fun _ => CallOutcome.ok ⟨false, none, none, some "bad key"⟩) else none)
      ⟨"cat", 512, 512, none, none⟩ ["a"]).error_message = some "bad key" ∧
    (generate_with_providers
      (fun n => if n = "a" then
        some (fun _ => CallOutcome.ok ⟨false, none, none, some "bad key"⟩) else none)
      ⟨"cat", 512, 512, none, none⟩ ["a", "b"]).error_message =
      some "所有供应商都无法生成图片。详细错误: a: bad key; b: 供应商未配置" := by
  constructor
  · exact (fallback_all_fail_errors
      (fun n => if n = "a" then
        some (fun _ => CallOutcome.ok ⟨false, none, none, some "bad key"⟩) else none)
      ⟨"cat", 512, 512, none, none⟩ ["a"] (by decide)).1
      "a" _ ⟨false, none, none, some "bad key"⟩ "bad key"
      rfl (by decide) rfl rfl rfl (by decide)
  · have h := (fallback_all_fail_errors
      (fun n => if n = "a" then
        some (fun _ => CallOutcome.ok ⟨false, none, none, some "bad key"⟩) else none)
      ⟨"cat", 512, 512, none, none⟩ ["a", "b"] (by decide)).2 (by decide)
    rw [h]
    rfl

end Txsc

namespace Txsc

/-- C3: for a non-admin user with stored last-accepted timestamp `t0` and
cooldown `D > 0`, a check at `t0 + d` with `d < D` rejects and leaves the
stored map unchanged; a check with `d ≥ D` accepts and overwrites the
stored timestamp with the current time; a check for a user with no stored
record accepts and stores the current time. -/
theorem cooldown_reject_noupdate_accept_update
    (D t0 d t : Int) (admins : List String) (u : String)
    (st : List (String × Int)) (hD : 0 < D) (hadm : u ∉ admins) :
    (dictGet st u = some t0 → d < D →
      (check_cooldown D admins u (t0 + d) st).1.isSome = true ∧
      (check_cooldown D admins u (t0 + d) st).2 = st) ∧
    (dictGet st u = some t0 → D ≤ d →
      (check_cooldown D admins u (t0 + d) st).1 = none ∧
      (check_cooldown D admins u (t0 + d) st).2 = dictSet st u (t0 + d)) ∧
    (dictGet st u = none →
      (check_cooldown D admins u t st).1 = none ∧
      (check_cooldown D admins u t st).2 = dictSet st u t) := by
  have hD' : ¬ D ≤ 0 := not_le.mpr hD
  refine ⟨?_, ?_, ?_⟩
  · intro hget hlt
    have helapsed : t0 + d - t0 = d := by ring
    simp only [check_cooldown, hD', if_false, hadm, if_neg, hget]
    simp only [helapsed, hlt, if_true]
    split <;> simp
  · intro hget hge
    have h₁ : ¬ (t0 + d - t0 < D) := by omega
    have h₂ : ¬ (d < D) := not_lt.mpr hge
    simp [check_cooldown, hD', hadm, hget, h₁, h₂]
  · intro hget
    simp [check_cooldown, hD', hadm, hget]

/-- Witness for C3 at `D = 180`, `t0 = 100`, rejection at `d = 50`,
acceptance at `d = 200`, and a fresh user. -/
theorem cooldown_reject_noupdate_accept_update_witness :
    ((check_cooldown 180 ["adm"] "u" (100 + 50) [("u", 100)]).1.isSome = true ∧
      (check_cooldown 180 ["adm"] "u" (100 + 50) [("u", 100)]).2 = [("u", 100)]) ∧
    ((check_cooldown 180 ["adm"] "u" (100 + 200) [("u", 100)]).1 = none ∧
      (check_cooldown 180 ["adm"] "u" (100 + 200) [("u", 100)]).2 =
        dictSet [("u", 100)] "u" (100 + 200)) ∧
    ((check_cooldown 180 ["adm"] "v" 7 [("u", 100)]).1 = none ∧
      (check_cooldown 180 ["adm"] "v" 7 [("u", 100)]).2 =
        dictSet [("u", 100)] "v" 7) := by
  refine ⟨?_, ?_, ?_⟩
  · exact (cooldown_reject_noupdate_accept_update 180 100 50 0 ["adm"] "u" [("u", 100)]
      (by decide) (by decide)).1 (by decide) (by decide)
  · exact (cooldown_reject_noupdate_accept_update 180 100 200 0 ["adm"] "u" [("u", 100)]
      (by decide) (by decide)).2.1 (by decide) (by decide)
  · exact (cooldown_reject_noupdate_accept_update 180 0 0 7 ["adm"] "v" [("u", 100)]
      (by decide) (by decide)).2.2 (by decide)

/-- C8: a configured cooldown duration ≤ 0 disables the guard: every
request from every user is accepted regardless of any stored history. -/
theorem cooldown_disabled_accepts
    (D t : Int) (admins : List String) (u : String)
    (st : List (String × Int)) (hD : D ≤ 0) :
    (check_cooldown D admins u t st).1 = none := by
  simp [check_cooldown, hD]

/-- Witness for C8 at `D = 0` with a stored record in range. -/
theorem cooldown_disabled_accepts_witness :
    (check_cooldown 0 [] "u" 101 [("u", 100)]).1 = none :=
  cooldown_disabled_accepts 0 101 [] "u" [("u", 100)] (by decide)

/-- C9: a user in the administrator-bypass list is always accepted,
regardless of the elapsed time since their last accepted request. -/
theorem cooldown_admin_bypass
    (D t : Int) (admins : List String) (u : String)
    (st : List (String × Int)) (hadm : u ∈ admins) :
    (check_cooldown D admins u t st).1 = none := by
  by_cases hD : D ≤ 0
  · simp [check_cooldown, hD]
  · simp [check_cooldown, hD, hadm]

/-- Witness for C9: an admin user checked 1 time unit after their stored
timestamp, well inside the 180-unit cooldown. -/
theorem cooldown_admin_bypass_witness :
    (check_cooldown 180 ["adm"] "adm" 101 [("adm", 100)]).1 = none :=
  cooldown_admin_bypass 180 101 ["adm"] "adm" [("adm", 100)] (by decide)

end Txsc

namespace Txsc

/-! ## Asynchronous task poller (`providers/tongyi.py:179`,
`_wait_for_task_completion`)

The backend is embedded as a function from the poll index (0-based count of
queries already made) to the response of that status query.  The loop is a
fuel-indexed recursion (`max_attempts - attempt` is the fuel); alongside the
returned `ImageGenerationResult` the embedding counts the status queries
performed and the total `asyncio.sleep` units, one 3-unit suspension before
every query. -/

/-- First content entry of a choice message; only the `"image"` key is read
by the poller (`tongyi.py:217`). -/
structure ContentItem where
  image : Option String
deriving DecidableEq, Repr

/-- A `choices[i]` entry: `"message"` key with its `"content"` list
(`tongyi.py:215-216`; an absent `"content"` key defaults to `[]`). -/
structure ChoiceMessage where
  content : List ContentItem
deriving DecidableEq, Repr

structure Choice where
  message : Option ChoiceMessage
deriving DecidableEq, Repr

/-- The `"output"` object of a task query response: `task_status`,
an optional `message`, and the `choices` list (an absent `"choices"` key
and an empty list behave identically at `tongyi.py:213`, so both are
embedded as `[]`). -/
structure TaskOutput where
  task_status : Option String
  message : Option String
  choices : List Choice
deriving DecidableEq, Repr

/-- Parsed JSON body of a status query response: the top-level `message`
key and the optional `output` object. -/
structure TaskBody where
  message : Option String
  output : Option TaskOutput
deriving DecidableEq, Repr

/-- One status query's observable outcome: an exception raised during the
request or JSON decoding, or an HTTP response with status code and body. -/
inductive PollResponse where
  | exn (msg : String)
  | http (status : Nat) (body : TaskBody)
deriving DecidableEq, Repr

/-- What one loop iteration does after receiving a response: return a
result, or fall through to the next iteration. -/
inductive PollStep where
  | done (r : ImageGenerationResult)
  | next
deriving DecidableEq, Repr

/-- Image extraction from a `SUCCEEDED` response (`tongyi.py:213-222`):
first choice, its `message`, first content entry, its `image` key. -/
def extract_image (o : TaskOutput) : Option String :=
  match o.choices with
  | [] => none
  | c :: _ =>
    match c.message with
    | none => none
    | some m =>
      match m.content with
      | [] => none
      | item :: _ => item.image

/-- The body of one `while` iteration of `_wait_for_task_completion`
(`tongyi.py:192-238`) after the sleep and the query. -/
def processResponse : PollResponse → PollStep
  | PollResponse.exn e =>
    PollStep.done ⟨false, none, none, some ("查询任务异常: " ++ e)⟩
  | PollResponse.http status body =>
    if status ≠ 200 then
      PollStep.done ⟨false, none, none,
        some ("查询任务失败: " ++ body.message.getD ("HTTP " ++ toString status))⟩
    else
      match body.output with
      | none => PollStep.next
      | some o =>
        if o.task_status = some "SUCCEEDED" then
          match extract_image o with
          | some url => PollStep.done ⟨true, some url, none, none⟩
          | none => PollStep.done ⟨false, none, none, some "任务完成但未返回图片"⟩
        else if o.task_status = some "FAILED" then
          PollStep.done ⟨false, none, none,
            some ("图片生成失败: " ++ o.message.getD "任务失败")⟩
        else PollStep.next

/-- The `while attempt < max_attempts` loop (`tongyi.py:188-243`), with
`remaining = max_attempts - attempt` as fuel.  Returns the result together
with the number of status queries performed and the accumulated sleep
units (3 before each query). -/
def wait_loop (responses : Nat → PollResponse) :
    Nat → Nat → ImageGenerationResult × Nat × Nat
  | _, 0 => (⟨false, none, none, some "任务超时: 等待时间超过3分钟"⟩, 0, 0)
  | attempt, remaining + 1 =>
    match processResponse (responses attempt) with
    | PollStep.done r => (r, 1, 3)
    | PollStep.next =>
      let rec₁ := wait_loop responses (attempt + 1) remaining
      (rec₁.1, rec₁.2.1 + 1, rec₁.2.2 + 3)

/-- `_wait_for_task_completion` with `max_attempts = 60`
(`tongyi.py:185`). -/
def wait_for_task_completion (responses : Nat → PollResponse) :
    ImageGenerationResult × Nat × Nat :=
  wait_loop responses 0 60

theorem wait_loop_all_next (responses : Nat → PollResponse)
    (h : ∀ n, processResponse (responses n) = PollStep.next) :
    ∀ (remaining attempt : Nat),
      wait_loop responses attempt remaining =
        (⟨false, none, none, some "任务超时: 等待时间超过3分钟"⟩,
          remaining, 3 * remaining) := by
  intro remaining
  induction remaining with
  | zero => intro attempt; rfl
  | succ k ih =>
    intro attempt
    rw [wait_loop]
    simp only [h attempt, ih (attempt + 1)]
    refine Prod.ext rfl (Prod.ext ?_ ?_) <;> simp <;> ring

/-- C4: a backend whose status queries never yield a terminal outcome
(no exception, HTTP 200, and a task status that is neither `SUCCEEDED` nor
`FAILED`) makes the poller perform exactly its maximum attempt count of 60
status queries, suspending 3 time units before each (180 in total), and
then return the timeout failure result. -/
theorem poller_timeout_after_budget (responses : Nat → PollResponse)
    (h : ∀ n, processResponse (responses n) = PollStep.next) :
    wait_for_task_completion responses =
      (⟨false, none, none, some "任务超时: 等待时间超过3分钟"⟩, 60, 180) := by
  rw [wait_for_task_completion, wait_loop_all_next responses h 60 0]

/-- Witness for C4: a backend forever answering HTTP 200 with task status
`RUNNING`. -/
theorem poller_timeout_after_budget_witness :
    wait_for_task_completion
      (fun _ => PollResponse.http 200 ⟨none, some ⟨some "RUNNING", none, []⟩⟩) =
      (⟨false, none, none, some "任务超时: 等待时间超过3分钟"⟩, 60, 180) :=
  poller_timeout_after_budget
    (fun _ => PollResponse.http 200 ⟨none, some ⟨some "RUNNING", none, []⟩⟩)
    (fun _ => rfl)

theorem wait_loop_done_at (responses : Nat → PollResponse)
    (r : ImageGenerationResult) :
    ∀ (k attempt remaining : Nat), k < remaining →
      (∀ n, n < k → processResponse (responses (attempt + n)) = PollStep.next) →
      processResponse (responses (attempt + k)) = PollStep.done r →
      wait_loop responses attempt remaining = (r, k + 1, 3 * (k + 1)) := by
  intro k
  induction k with
  | zero =>
    intro attempt remaining hlt _ hdone
    obtain ⟨rem, rfl⟩ : ∃ rem, remaining = rem + 1 :=
      ⟨remaining - 1, by omega⟩
    rw [wait_loop]
    simp only [Nat.add_zero] at hdone
    simp [hdone]
  | succ k ih =>
    intro attempt remaining hlt hnext hdone
    obtain ⟨rem, rfl⟩ : ∃ rem, remaining = rem + 1 :=
      ⟨remaining - 1, by omega⟩
    rw [wait_loop]
    have h0 : processResponse (responses attempt) = PollStep.next := by
      have := hnext 0 (Nat.succ_pos k)
      simpa using this
    have hrec : wait_loop responses (attempt + 1) rem = (r, k + 1, 3 * (k + 1)) := by
      refine ih (attempt + 1) rem (by omega) ?_ ?_
      · intro n hn
        have := hnext (n + 1) (by omega)
        have harith : attempt + (n + 1) = attempt + 1 + n := by omega
        rwa [harith] at this
      · have harith : attempt + (k + 1) = attempt + 1 + k := by omega
        rwa [harith] at hdone
    simp only [h0, hrec]
    refine Prod.ext rfl (Prod.ext ?_ ?_) <;> simp <;> ring

/-- C7: when the `k`-th status query (after `k` non-terminal answers)
returns HTTP 200 with task status `SUCCEEDED` but no extractable image,
the poller stops right there — `k + 1` queries in total — and returns the
distinct "succeeded but no image" failure (`任务完成但未返回图片`). -/
theorem poller_succeeded_no_image (responses : Nat → PollResponse)
    (body : TaskBody) (o : TaskOutput) (k : Nat) (hk : k < 60)
    (hprev : ∀ n, n < k → processResponse (responses n) = PollStep.next)
    (hresp : responses k = PollResponse.http 200 body)
    (hout : body.output = some o)
    (hstatus : o.task_status = some "SUCCEEDED")
    (himg : extract_image o = none) :
    wait_for_task_completion responses =
      (⟨false, none, none, some "任务完成但未返回图片"⟩, k + 1, 3 * (k + 1)) := by
  have hdone : processResponse (responses k) =
      PollStep.done ⟨false, none, none, some "任务完成但未返回图片"⟩ := by
    rw [hresp, processResponse]
    simp [hout, hstatus, himg]
  rw [wait_for_task_completion]
  have := wait_loop_done_at responses
    ⟨false, none, none, some "任务完成但未返回图片"⟩ k 0 60 hk
    (by intro n hn; simpa using hprev n hn) (by simpa using hdone)
  exact this

/-- Witness for C7: the second query (`k = 1`) answers `SUCCEEDED` with an
empty `choices` list after one `RUNNING` answer. -/
theorem poller_succeeded_no_image_witness :
    wait_for_task_completion
      (fun n => if n = 0 then PollResponse.http 200 ⟨none, some ⟨some "RUNNING", none, []⟩⟩
        else PollResponse.http 200 ⟨none, some ⟨some "SUCCEEDED", none, []⟩⟩) =
      (⟨false, none, none, some "任务完成但未返回图片"⟩, 1 + 1, 3 * (1 + 1)) := by
  refine poller_succeeded_no_image
    (fun n => if n = 0 then PollResponse.http 200 ⟨none, some ⟨some "RUNNING", none, []⟩⟩
      else PollResponse.http 200 ⟨none, some ⟨some "SUCCEEDED", none, []⟩⟩)
    ⟨none, some ⟨some "SUCCEEDED", none, []⟩⟩ ⟨some "SUCCEEDED", none, []⟩
    1 (by decide) ?_ (by decide) rfl rfl rfl
  intro n hn
  interval_cases n
  decide

end Txsc

namespace Txsc

/-! ## Image-collection session (`main.py:247-324`, `wait_for_images`) and
edit generation (`main.py:326-364`, `_handle_image_edit_generation`)

An inbound event carries its stripped text payload and the resolution
outcome of each `Image` component in message order: either the encoded
data URL the handler would append (successful download / file read), or a
failure (HTTP error or exception), which the handler skips.  Outbound
`event.send` / `yield` payloads are embedded as `Reply` values; the
temporary-file delivery of a base64 image is abstracted as
`Reply.imageFile` carrying the base64 payload (the spec places
temporary-file handling out of scope). -/

/-- Resolution outcome of one inbound `Image` component
(`main.py:291-311`). -/
inductive ImgOutcome where
  | resolved (dataUrl : String)
  | failed
deriving DecidableEq, Repr

/-- An inbound event as seen by `wait_for_images`: the stripped
`message_str` and the image components of the message. -/
structure SessionEvent where
  message_str : String
  image_components : List ImgOutcome
deriving DecidableEq, Repr

/-- An outbound payload. -/
inductive Reply where
  | plain (s : String)
  | image (url : String)
  | imageFile (base64 : String)
deriving DecidableEq, Repr

/-- One `generate_image_edit` invocation recorded with its arguments
(`main.py:338`: `tongyi_provider.generate_image_edit(prompt, images)`). -/
structure EditCall where
  provider : String
  prompt : String
  images : List String
deriving DecidableEq, Repr

/-- The `for img in image_components` loop (`main.py:286-311`): appends
each successfully resolved image while fewer than 3 are stored; at the cap
it emits the capacity notice and breaks, dropping the remaining
components.  Returns the new image list and emitted notices. -/
def collect_images : List String → List ImgOutcome → List String × List String
  | images, [] => (images, [])
  | images, comp :: rest =>
    if images.length ≥ 3 then
      (images, ["最多支持3张图片，已忽略额外的图片"])
    else
      match comp with
      | ImgOutcome.resolved url => collect_images (images ++ [url]) rest
      | ImgOutcome.failed => collect_images images rest

/-- `_handle_image_edit_generation` (`main.py:326-364`): requires the
`tongyi` provider to be active and a `TongyiProvider` instance
(`hasTongyiInstance`); performs exactly one `generate_image_edit` call,
whose outcome is the parameter `editResult`.  Returns the outbound
replies and the recorded edit calls. -/
def handle_image_edit_generation (active : List String) (hasTongyiInstance : Bool)
    (editResult : ImageGenerationResult) (prompt : String) (images : List String) :
    List Reply × List EditCall :=
  if "tongyi" ∉ active then
    ([Reply.plain "图片编辑功能需要配置通义万相API"], [])
  else if ¬ hasTongyiInstance then
    ([Reply.plain "图片编辑功能仅支持通义万相"], [])
  else
    let calls := [EditCall.mk "tongyi" prompt images]
    if editResult.success && editResult.has_image then
      match editResult.image_url with
      | some url => ([Reply.image url], calls)
      | none =>
        match editResult.image_base64 with
        | some b64 => ([Reply.imageFile b64], calls)
        | none => ([], calls)
    else
      ([Reply.plain ("生成失败: " ++ pyOr editResult.error_message "生成图片失败")], calls)

/-- Result of one `wait_for_images` activation (`main.py:267-317`). -/
structure StepOut where
  images : List String
  replies : List Reply
  stopped : Bool
  editCalls : List EditCall
deriving DecidableEq, Repr

/-- One activation of the `wait_for_images` session handler on an inbound
event, given the accumulated image list. -/
def wait_for_images_step (active : List String) (hasTongyiInstance : Bool)
    (editResult : ImageGenerationResult) (prompt : String)
    (images : List String) (ev : SessionEvent) : StepOut :=
  if ev.message_str = "完成" then
    if images.length = 0 then
      ⟨images, [Reply.plain "未收到任何图片，操作已取消"], true, []⟩
    else
      let gen := handle_image_edit_generation active hasTongyiInstance editResult
        prompt images
      ⟨images,
        Reply.plain ("收到 " ++ toString images.length ++ " 张图片，正在生成编辑后的图片...")
          :: gen.1,
        true, gen.2⟩
  else
    if ev.image_components.length > 0 then
      let collected := collect_images images ev.image_components
      ⟨collected.1,
        collected.2.map Reply.plain
          ++ [Reply.plain ("已收到 " ++ toString collected.1.length
            ++ " 张图片，继续发送图片或发送\"完成\"结束")],
        false, []⟩
    else
      ⟨images, [Reply.plain "请发送图片或输入\"完成\""], false, []⟩

/-- The session across a sequence of inbound events, starting from an
accumulated list: each event is handled by `wait_for_images_step`; once the
handler stops the session (`controller.stop()`), later events are no longer
delivered to it. -/
def run_session (active : List String) (hasTongyiInstance : Bool)
    (editResult : ImageGenerationResult) (prompt : String) :
    List String → List SessionEvent → List String
  | images, [] => images
  | images, ev :: rest =>
    let out := wait_for_images_step active hasTongyiInstance editResult prompt images ev
    if out.stopped then out.images
    else run_session active hasTongyiInstance editResult prompt out.images rest

theorem collect_images_nil (images : List String) :
    collect_images images [] = (images, []) := rfl

theorem collect_images_cons (images : List String) (comp : ImgOutcome)
    (rest : List ImgOutcome) :
    collect_images images (comp :: rest) =
      if images.length ≥ 3 then
        (images, ["最多支持3张图片，已忽略额外的图片"])
      else
        match comp with
        | ImgOutcome.resolved url => collect_images (images ++ [url]) rest
        | ImgOutcome.failed => collect_images images rest := rfl

theorem collect_images_length_le (comps : List ImgOutcome) :
    ∀ images : List String, images.length ≤ 3 →
      (collect_images images comps).1.length ≤ 3 := by
  induction comps with
  | nil => intro images h; exact h
  | cons comp rest ih =>
    intro images h
    rw [collect_images_cons]
    by_cases hc : images.length ≥ 3
    · rw [if_pos hc]; exact h
    · rw [if_neg hc]
      cases comp with
      | resolved url =>
        exact ih (images ++ [url]) (by simp; omega)
      | failed => exact ih images h

theorem collect_images_at_cap (comps : List ImgOutcome) (images : List String)
    (h : images.length = 3) :
    (collect_images images comps).1 = images ∧
    (comps ≠ [] →
      (collect_images images comps).2 = ["最多支持3张图片，已忽略额外的图片"]) := by
  cases comps with
  | nil => exact ⟨rfl, fun hne => absurd rfl hne⟩
  | cons comp rest =>
    rw [collect_images_cons, if_pos (show images.length ≥ 3 by omega)]
    exact ⟨rfl, fun _ => rfl⟩

theorem wait_for_images_step_length_le (active : List String)
    (hasTongyiInstance : Bool) (editResult : ImageGenerationResult)
    (prompt : String) (images : List String) (ev : SessionEvent)
    (h : images.length ≤ 3) :
    (wait_for_images_step active hasTongyiInstance editResult prompt images ev).images.length
      ≤ 3 := by
  rw [wait_for_images_step]
  by_cases hfin : ev.message_str = "完成"
  · rw [if_pos hfin]
    by_cases hz : images.length = 0
    · rw [if_pos hz]; exact h
    · rw [if_neg hz]; exact h
  · rw [if_neg hfin]
    by_cases himg : ev.image_components.length > 0
    · rw [if_pos himg]
      exact collect_images_length_le ev.image_components images h
    · rw [if_neg himg]; exact h

theorem run_session_length_le (active : List String) (hasTongyiInstance : Bool)
    (editResult : ImageGenerationResult) (prompt : String)
    (evs : List SessionEvent) :
    ∀ images : List String, images.length ≤ 3 →
      (run_session active hasTongyiInstance editResult prompt images evs).length ≤ 3 := by
  induction evs with
  | nil => intro images h; exact h
  | cons ev rest ih =>
    intro images h
    rw [run_session]
    by_cases hs : (wait_for_images_step active hasTongyiInstance editResult prompt
        images ev).stopped = true
    · rw [if_pos hs]
      exact wait_for_images_step_length_le active hasTongyiInstance editResult
        prompt images ev h
    · rw [if_neg hs]
      exact ih _ (wait_for_images_step_length_le active hasTongyiInstance editResult
        prompt images ev h)

/-- C5: starting from an empty list, across any sequence of inbound events
the accumulated image list never exceeds 3 elements; moreover once 3
images are stored, any event leaves them unchanged (every further image is
dropped), and an image-bearing non-finish event then emits the capacity
notice. -/
theorem session_images_capped (active : List String) (hasTongyiInstance : Bool)
    (editResult : ImageGenerationResult) (prompt : String)
    (evs : List SessionEvent) (images : List String) (ev : SessionEvent) :
    (run_session active hasTongyiInstance editResult prompt [] evs).length ≤ 3 ∧
    (images.length = 3 →
      (wait_for_images_step active hasTongyiInstance editResult prompt images ev).images
        = images) ∧
    (images.length = 3 → ev.message_str ≠ "完成" → ev.image_components ≠ [] →
      Reply.plain "最多支持3张图片，已忽略额外的图片" ∈
        (wait_for_images_step active hasTongyiInstance editResult prompt images ev).replies) := by
  refine ⟨run_session_length_le active hasTongyiInstance editResult prompt evs []
    (by simp), ?_, ?_⟩
  · intro h3
    rw [wait_for_images_step]
    by_cases hfin : ev.message_str = "完成"
    · rw [if_pos hfin]
      by_cases hz : images.length = 0
      · rw [if_pos hz]
      · rw [if_neg hz]
    · rw [if_neg hfin]
      by_cases himg : ev.image_components.length > 0
      · rw [if_pos himg]
        exact (collect_images_at_cap ev.image_components images h3).1
      · rw [if_neg himg]
  · intro h3 hfin hne
    rw [wait_for_images_step, if_neg hfin]
    have himg : ev.image_components.length > 0 := by
      cases hcs : ev.image_components with
      | nil => exact absurd hcs hne
      | cons c cs => simp [hcs]
    rw [if_pos himg]
    have hnotice := (collect_images_at_cap ev.image_components images h3).2 hne
    simp [hnotice]

/-- Witness for C5: two events carrying two and three images; the run
keeps 3 of the 5, and a further image-bearing event leaves the list
unchanged and emits the capacity notice. -/
theorem session_images_capped_witness :
    (run_session ["tongyi"] true ⟨true, some "u", none, none⟩ "p" []
      [⟨"", [ImgOutcome.resolved "i1", ImgOutcome.resolved "i2"]⟩,
       ⟨"", [ImgOutcome.resolved "i3", ImgOutcome.resolved "i4",
         ImgOutcome.resolved "i5"]⟩]).length ≤ 3 ∧
    (wait_for_images_step ["tongyi"] true ⟨true, some "u", none, none⟩ "p"
      ["i1", "i2", "i3"] ⟨"", [ImgOutcome.resolved "i4"]⟩).images
      = ["i1", "i2", "i3"] ∧
    Reply.plain "最多支持3张图片，已忽略额外的图片" ∈
      (wait_for_images_step ["tongyi"] true ⟨true, some "u", none, none⟩ "p"
        ["i1", "i2", "i3"] ⟨"", [ImgOutcome.resolved "i4"]⟩).replies := by
  have h := session_images_capped ["tongyi"] true ⟨true, some "u", none, none⟩ "p"
    [⟨"", [ImgOutcome.resolved "i1", ImgOutcome.resolved "i2"]⟩,
     ⟨"", [ImgOutcome.resolved "i3", ImgOutcome.resolved "i4",
       ImgOutcome.resolved "i5"]⟩]
    ["i1", "i2", "i3"] ⟨"", [ImgOutcome.resolved "i4"]⟩
  exact ⟨h.1, h.2.1 (by decide), h.2.2 (by decide) (by decide) (by decide)⟩

/-- C6: on the finish signal (`完成`), with the `tongyi` provider active
and a genuine `TongyiProvider` instance: 0 accumulated images ends the
session with the cancellation notice and no edit-generation call; ≥ 1
accumulated images ends the session with exactly one edit call, via
`tongyi`, carrying the original prompt and the full accumulated list. -/
theorem finish_signal_edit_attempt (active : List String)
    (hasTongyiInstance : Bool) (editResult : ImageGenerationResult)
    (prompt : String) (images : List String) (ev : SessionEvent)
    (hfin : ev.message_str = "完成") (hact : "tongyi" ∈ active)
    (hinst : hasTongyiInstance = true) :
    (images = [] →
      (wait_for_images_step active hasTongyiInstance editResult prompt images ev).stopped
          = true ∧
      (wait_for_images_step active hasTongyiInstance editResult prompt images ev).editCalls
          = [] ∧
      Reply.plain "未收到任何图片，操作已取消" ∈
        (wait_for_images_step active hasTongyiInstance editResult prompt images ev).replies) ∧
    (images ≠ [] →
      (wait_for_images_step active hasTongyiInstance editResult prompt images ev).stopped
          = true ∧
      (wait_for_images_step active hasTongyiInstance editResult prompt images ev).editCalls
          = [EditCall.mk "tongyi" prompt images]) := by
  constructor
  · rintro rfl
    rw [wait_for_images_step, if_pos hfin]
    exact ⟨rfl, rfl, by simp⟩
  · intro hne
    have hz : ¬ (images.length = 0) := by
      simpa [List.length_eq_zero] using hne
    rw [wait_for_images_step, if_pos hfin, if_neg hz]
    refine ⟨rfl, ?_⟩
    show (handle_image_edit_generation active hasTongyiInstance editResult
      prompt images).2 = [EditCall.mk "tongyi" prompt images]
    rw [handle_image_edit_generation]
    rw [if_neg (by simpa using hact), hinst]
    simp only [not_true, if_false]
    by_cases hok : editResult.success && editResult.has_image
    · rw [if_pos hok]
      cases editResult.image_url <;> cases editResult.image_base64 <;> rfl
    · rw [if_neg hok]

/-- Witness for C6: finish with no images cancels without an edit call;
finish with two images makes exactly the one `tongyi` edit call with the
original prompt and both images. -/
theorem finish_signal_edit_attempt_witness :
    ((wait_for_images_step ["tongyi"] true ⟨true, some "u", none, none⟩ "p" []
        ⟨"完成", []⟩).stopped = true ∧
      (wait_for_images_step ["tongyi"] true ⟨true, some "u", none, none⟩ "p" []
        ⟨"完成", []⟩).editCalls = [] ∧
      Reply.plain "未收到任何图片，操作已取消" ∈
        (wait_for_images_step ["tongyi"] true ⟨true, some "u", none, none⟩ "p" []
          ⟨"完成", []⟩).replies) ∧
    ((wait_for_images_step ["tongyi"] true ⟨true, some "u", none, none⟩ "p"
        ["i1", "i2"] ⟨"完成", []⟩).stopped = true ∧
      (wait_for_images_step ["tongyi"] true ⟨true, some "u", none, none⟩ "p"
        ["i1", "i2"] ⟨"完成", []⟩).editCalls
        = [EditCall.mk "tongyi" "p" ["i1", "i2"]]) := by
  constructor
  · exact (finish_signal_edit_attempt ["tongyi"] true ⟨true, some "u", none, none⟩
      "p" [] ⟨"完成", []⟩ rfl (by simp) rfl).1 rfl
  · exact (finish_signal_edit_attempt ["tongyi"] true ⟨true, some "u", none, none⟩
      "p" ["i1", "i2"] ⟨"完成", []⟩ rfl (by simp) rfl).2 (by simp)

end Txsc

namespace Txsc

/-! ## Size mapper (`providers/tongyi.py:245`, `_map_size`)

Python computes `ratio = width / height` in floating point and compares it
with `16/9`; the embedding uses the exact rational comparison
`width / height ≥ 16/9  ↔  9 * width ≥ 16 * height` (and symmetrically for
portrait inputs), which is the bucket threshold the code implements. -/

/-- `_map_size` (`tongyi.py:245-265`). -/
def map_size (width height : Nat) : String :=
  if width = height then
    if width ≤ 768 then "768*768"
    else if width ≤ 1024 then "1024*1024"
    else "1280*1280"
  else if width > height then
    if 9 * width ≥ 16 * height then "1280*720" else "1280*960"
  else
    if 9 * height ≥ 16 * width then "720*1280" else "960*1280"

/-- C10: for every width ≥ 1 and height ≥ 1 the size mapper is total and
returns one of exactly seven strings, selected by the square thresholds
768 and 1024, the landscape threshold `width/height ≥ 16/9`, and the
portrait threshold `height/width ≥ 16/9`. -/
theorem map_size_total_buckets (width height : Nat)
    (hw : 1 ≤ width) (hh : 1 ≤ height) :
    map_size width height ∈
      ["768*768", "1024*1024", "1280*1280", "1280*720", "1280*960",
        "720*1280", "960*1280"] ∧
    (width = height →
      map_size width height =
        if width ≤ 768 then "768*768"
        else if width ≤ 1024 then "1024*1024"
        else "1280*1280") ∧
    (width > height →
      map_size width height =
        if 9 * width ≥ 16 * height then "1280*720" else "1280*960") ∧
    (width < height →
      map_size width height =
        if 9 * height ≥ 16 * width then "720*1280" else "960*1280") := by
  refine ⟨?_, ?_, ?_, ?_⟩
  · rw [map_size]
    split_ifs <;> simp
  · intro he
    rw [map_size, if_pos he]
  · intro hgt
    have hne : ¬ (width = height) := by omega
    rw [map_size, if_neg hne, if_pos hgt]
  · intro hlt
    have hne : ¬ (width = height) := by omega
    have hngt : ¬ (width > height) := by omega
    rw [map_size, if_neg hne, if_neg hngt]

/-- Witness for C10 at a 1920×1080 landscape input (exactly the 16:9
threshold). -/
theorem map_size_total_buckets_witness :
    map_size 1920 1080 ∈
      ["768*768", "1024*1024", "1280*1280", "1280*720", "1280*960",
        "720*1280", "960*1280"] ∧
    map_size 1920 1080 = "1280*720" := by
  have h := map_size_total_buckets 1920 1080 (by decide) (by decide)
  refine ⟨h.1, ?_⟩
  have h2 := h.2.2.1 (by decide)
  rw [h2]
  decide

end Txsc
